import Mathlib

/-!
Verification of the todo-list REST API of this repository against its
natural-language specification.  The server (`TodosApi.cs`) is embedded
shallowly: the database is a list of `TodoItem`s, each minimal-API handler
becomes a pure Lean function from the database and the bound request
parameters to the new database and an HTTP-level result.  `DateTimeOffset`
values are modelled as integers, C# nullable values as `Option`.
-/

/-- The `TodoItem` entity of `TodosApi.cs`: `Id`, `Title`, `Notes`,
`IsCompleted`, `SortOrder`, `DueDate`, `CreatedAt`, `UpdatedAt`.
`DateTimeOffset` is modelled as `Int` (a timestamp), nullable columns as
`Option`. -/
structure TodoItem where
  id : Nat
  title : String
  notes : Option String
  isCompleted : Bool
  sortOrder : Int
  dueDate : Option Int
  createdAt : Int
  updatedAt : Int
deriving Repr, DecidableEq

/-- C# `char` whitespace test used by `string.Trim` / `IsNullOrWhiteSpace`. -/
def isWS (c : Char) : Bool := c.isWhitespace

/-- C# `string.Trim()` on the character list: drop leading and trailing
whitespace. -/
def trimChars (cs : List Char) : List Char :=
  ((cs.dropWhile isWS).reverse.dropWhile isWS).reverse

/-- C# `string.Trim()`. -/
def trimStr (s : String) : String := ⟨trimChars s.data⟩

/-- C# `string.IsNullOrWhiteSpace` on a non-null string: the string is empty
or consists only of white-space characters. -/
def isWhiteSpaceStr (s : String) : Bool := s.data.all isWS


/-- The database: the `Todos` table in insertion order.  EF Core's
`SaveChangesAsync` is modelled by returning the updated list. -/
abbrev Db := List TodoItem

/-- `ApplySort` in `TodosApi.cs`: a `switch` on the `sort` query parameter.
Each EF Core `OrderBy`/`OrderByDescending` is a stable sort by the given
key; every unrecognised value (including `null` and `"due"`) falls to the
default branch, `OrderByDescending(item => item.CreatedAt)`. -/
def applySort (sort : Option String) (query : List TodoItem) : List TodoItem :=
  match sort with
  | some "createdAt" => query.insertionSort (fun a b => a.createdAt ≤ b.createdAt)
  | some "-createdAt" => query.insertionSort (fun a b => b.createdAt ≤ a.createdAt)
  | some "title" => query.insertionSort (fun a b => a.title ≤ b.title)
  | some "-title" => query.insertionSort (fun a b => b.title ≤ a.title)
  | some "order" => query.insertionSort (fun a b => a.sortOrder ≤ b.sortOrder)
  | some "-order" => query.insertionSort (fun a b => b.sortOrder ≤ a.sortOrder)
  | _ => query.insertionSort (fun a b => b.createdAt ≤ a.createdAt)

/-- Result of `GET /api/todos`: the page of items in the 200 body together
with the `X-Total-Count` response header. -/
structure ListResponse where
  items : List TodoItem
  totalCount : Nat
deriving Repr, DecidableEq

/-- The query parameters bound by the `MapGet("")` list handler, in order:
`completed`, `page`, `pageSize`, `sort`.  Any other query-string key (such
as `q`) is not a handler parameter and is ignored by minimal-API binding. -/
def listHandlerParameters : List String :=
  ["completed", "page", "pageSize", "sort"]

/-- The optional completion-state filter of the list handler:
`if (completed.HasValue) query = query.Where(item => item.IsCompleted == completed.Value)`. -/
def filterCompleted (completed : Option Bool) (db : Db) : List TodoItem :=
  match completed with
  | some b => db.filter (fun item => item.isCompleted == b)
  | none => db

/-- Two's-complement wrap-around of unchecked C# `int` arithmetic:
reduce an integer into `[-2^31, 2^31)`. -/
def wrapInt32 (n : Int) : Int := (n + 2 ^ 31) % 2 ^ 32 - 2 ^ 31

/-- The `GET /api/todos` list handler of `TodosApi.cs`: clamp `page` and
`pageSize`, filter by `completed` when present, count, sort, then
`Skip((page-1)*pageSize).Take(pageSize)`.  `page` and `pageSize` are C#
`int`s (model-binding rejects out-of-range query values), and the skip
offset `(page-1)*pageSize` is computed in unchecked 32-bit arithmetic, so
the product wraps (`wrapInt32`).  When the wrapped offset is negative the
translated SQL `OFFSET` is invalid and the query fails instead of
producing a page; the model's `Int.toNat` clamps that region to 0, and
theorems about successful responses do not rely on it. -/
def listTodos (db : Db) (completed : Option Bool) (page : Int) (pageSize : Int)
    (sort : Option String) : ListResponse :=
  let page := if page < 1 then 1 else page
  let pageSize := if pageSize < 1 then 20 else min pageSize 100
  let query := filterCompleted completed db
  let totalCount := query.length
  let sorted := applySort sort query
  let items := (sorted.drop (wrapInt32 ((page - 1) * pageSize)).toNat).take pageSize.toNat
  { items := items, totalCount := totalCount }

/-- Result of `GET /api/todos/{id}`. -/
inductive GetResult where
  | notFound
  | okItem (item : TodoItem)
deriving Repr, DecidableEq

/-- The `GET /api/todos/{id}` handler: `FirstOrDefaultAsync(todo => todo.Id == id)`,
404 when absent. -/
def getTodo (db : Db) (id : Nat) : GetResult :=
  match db.find? (fun todo => todo.id == id) with
  | none => GetResult.notFound
  | some item => GetResult.okItem item

/-- The `CreateTodoRequest` record. -/
structure CreateTodoRequest where
  title : Option String
  notes : Option String
  dueDate : Option Int
  sortOrder : Option Int
deriving Repr, DecidableEq

/-- Result of `POST /api/todos`. -/
inductive PostResult where
  | badRequest (error : String)
  | created (item : TodoItem)
deriving Repr, DecidableEq

/-- The `POST /api/todos` handler: `request.Title?.Trim()` followed by
`string.IsNullOrWhiteSpace`, then a new entity with trimmed title and
notes, `SortOrder ?? 0`, `IsCompleted = false` and
`CreatedAt = UpdatedAt = now`.  `newId` is the key the database assigns. -/
def postTodo (db : Db) (request : CreateTodoRequest) (now : Int) (newId : Nat) :
    Db × PostResult :=
  match request.title.map trimStr with
  | none => (db, PostResult.badRequest "Title is required.")
  | some title =>
    if isWhiteSpaceStr title then
      (db, PostResult.badRequest "Title is required.")
    else
      let item : TodoItem :=
        { id := newId
          title := title
          notes := request.notes.map trimStr
          dueDate := request.dueDate
          sortOrder := request.sortOrder.getD 0
          isCompleted := false
          createdAt := now
          updatedAt := now }
      (db ++ [item], PostResult.created item)

/-- The `UpdateTodoRequest` record (with `ClearDueDate = false` as default). -/
structure UpdateTodoRequest where
  title : Option String
  notes : Option String
  dueDate : Option Int
  sortOrder : Option Int
  isCompleted : Option Bool
  clearDueDate : Bool := false
deriving Repr, DecidableEq

/-- Result of `PATCH /api/todos/{id}`. -/
inductive PatchResult where
  | notFound
  | badRequest (error : String)
  | okItem (item : TodoItem)
deriving Repr, DecidableEq

/-- The title validation at the top of the PATCH handler: a supplied
`Title` is trimmed and rejected (`none`) when `IsNullOrWhiteSpace`;
an absent `Title` leaves the item untouched. -/
def patchTitle (item : TodoItem) (requestTitle : Option String) : Option TodoItem :=
  match requestTitle with
  | none => some item
  | some t =>
    let title := trimStr t
    if isWhiteSpaceStr title then none
    else some { item with title := title }

/-- The field updates of the PATCH handler after title validation, in
source order: `Notes`, `DueDate`/`ClearDueDate`, `SortOrder`,
`IsCompleted`, then `UpdatedAt = now`. -/
def applyPatchFields (item : TodoItem) (request : UpdateTodoRequest) (now : Int) : TodoItem :=
  let item := match request.notes with
    | none => item
    | some n => { item with notes := some (trimStr n) }
  let item :=
    if request.dueDate.isSome || request.clearDueDate then
      { item with dueDate := if request.clearDueDate then none else request.dueDate }
    else item
  let item := match request.sortOrder with
    | none => item
    | some s => { item with sortOrder := s }
  let item := match request.isCompleted with
    | none => item
    | some c => { item with isCompleted := c }
  { item with updatedAt := now }

/-- The `PATCH /api/todos/{id}` handler: find by key; reject a supplied
title that trims to whitespace before any mutation; otherwise apply each
supplied field in order, set `UpdatedAt`, and save. -/
def patchTodo (db : Db) (id : Nat) (request : UpdateTodoRequest) (now : Int) :
    Db × PatchResult :=
  match db.find? (fun todo => todo.id == id) with
  | none => (db, PatchResult.notFound)
  | some item =>
    match patchTitle item request.title with
    | none => (db, PatchResult.badRequest "Title is required.")
    | some item =>
      let item := applyPatchFields item request now
      (db.map (fun todo => if todo.id == id then item else todo), PatchResult.okItem item)

/-- Result of `DELETE /api/todos/{id}`. -/
inductive DeleteResult where
  | notFound
  | noContent
deriving Repr, DecidableEq

/-- The `DELETE /api/todos/{id}` handler of `TodosApi.cs`: find by key,
`dbContext.Todos.Remove(item)` (the row is removed from the table), save,
204. -/
def deleteTodo (db : Db) (id : Nat) : Db × DeleteResult :=
  match db.find? (fun todo => todo.id == id) with
  | none => (db, DeleteResult.notFound)
  | some _ => (db.filter (fun todo => todo.id != id), DeleteResult.noContent)

/-- The routes mapped by `MapTodosApi` (method, pattern), in source order.
No other route is mapped on the `/api/todos` group. -/
def mappedRoutes : List (String × String) :=
  [ ("GET", "/api/todos")
  , ("GET", "/api/todos/{id:int}")
  , ("POST", "/api/todos")
  , ("PATCH", "/api/todos/{id:int}")
  , ("DELETE", "/api/todos/{id:int}") ]

/-!
The client-side collection (`frontend/src/db/todos.ts`).  The `queryFn` of
`todoCollection` fetches `GET /api/todos`, throws `"Could not load todos."`
on a non-OK response, and otherwise runs the JSON body through
`parseTodos`, which keeps an array as-is (cast to `TodoItem[]` without
validation) and turns any non-array body into `[]`.
-/

/-- A JSON response body, as far as `parseTodos` inspects it:
`Array.isArray(data)` either holds (an array, here of todo items) or the
body is some other JSON value. -/
inductive JsonData where
  | array (items : List TodoItem)
  | other
deriving Repr, DecidableEq

/-- `parseTodos` in `frontend/src/db/todos.ts`:
`Array.isArray(data) ? (data as TodoItem[]) : []`. -/
def parseTodos : JsonData → List TodoItem
  | JsonData.array items => items
  | JsonData.other => []

/-- The `queryFn` of `todoCollection`: a non-OK response throws (modelled
as `Except.error`), an OK response returns `parseTodos` of its body. -/
def collectionQueryFn (respOk : Bool) (body : JsonData) : Except String (List TodoItem) :=
  if !respOk then Except.error "Could not load todos."
  else Except.ok (parseTodos body)


/-! ### Helper lemmas -/

/-- Every element surviving `dropWhile p` satisfies `p` exactly when every
element of the whole list does. -/
lemma forall_dropWhile_iff (p : Char → Bool) (cs : List Char) :
    (∀ x ∈ cs.dropWhile p, p x = true) ↔ (∀ x ∈ cs, p x = true) := by
  constructor
  · intro h x hx
    rw [← List.takeWhile_append_dropWhile p cs] at hx
    rcases List.mem_append.mp hx with h1 | h2
    · exact List.mem_takeWhile_imp h1
    · exact h x h2
  · intro h x hx
    exact h x ((List.dropWhile_sublist p).mem hx)

/-- Trimming does not change whether every character is whitespace. -/
lemma all_trimChars (cs : List Char) : (trimChars cs).all isWS = cs.all isWS := by
  rw [Bool.eq_iff_iff, List.all_eq_true, List.all_eq_true]
  unfold trimChars
  calc (∀ x ∈ ((cs.dropWhile isWS).reverse.dropWhile isWS).reverse, isWS x = true)
      ↔ (∀ x ∈ (cs.dropWhile isWS).reverse.dropWhile isWS, isWS x = true) := by
        simp only [List.mem_reverse]
    _ ↔ (∀ x ∈ (cs.dropWhile isWS).reverse, isWS x = true) :=
        forall_dropWhile_iff isWS (cs.dropWhile isWS).reverse
    _ ↔ (∀ x ∈ cs.dropWhile isWS, isWS x = true) := by simp only [List.mem_reverse]
    _ ↔ (∀ x ∈ cs, isWS x = true) := forall_dropWhile_iff isWS cs

/-- A string is whitespace-only after `Trim()` exactly when it was
whitespace-only (or empty) before. -/
lemma isWhiteSpaceStr_trimStr (s : String) :
    isWhiteSpaceStr (trimStr s) = isWhiteSpaceStr s :=
  all_trimChars s.data

/-- `ApplySort` only reorders: its output is a permutation of its input,
whatever the `sort` parameter is. -/
lemma applySort_perm (sort : Option String) (l : List TodoItem) :
    (applySort sort l).Perm l := by
  unfold applySort
  split <;> exact List.perm_insertionSort _ _

/-- Every item in a list-endpoint page comes from the completion-filtered
table. -/
lemma mem_listTodos_items (db : Db) (completed : Option Bool) (page pageSize : Int)
    (sort : Option String) {item : TodoItem}
    (h : item ∈ (listTodos db completed page pageSize sort).items) :
    item ∈ filterCompleted completed db :=
  ((applySort_perm sort (filterCompleted completed db)).mem_iff).mp
    (List.mem_of_mem_drop (List.mem_of_mem_take h))

/-! ### C1: delete / restore -/

/-- A stored todo, as created by the repository's own lifecycle test
(`POST /api/todos` with title `"Container item"`). -/
def c1Item : TodoItem :=
  { id := 1, title := "Container item", notes := none, isCompleted := false,
    sortOrder := 0, dueDate := none, createdAt := 0, updatedAt := 0 }

/-- C1: the claim says DELETE is a soft delete that retains the item and
that `POST /api/todos/{i}/restore` then succeeds.  The DELETE handler in
`TodosApi.cs` instead removes the row (`dbContext.Todos.Remove`): after a
204 delete of the only stored item the table is empty, the item is not
retained anywhere, and `MapTodosApi` maps no restore route at all (so the
restore call of the frontend and of the lifecycle test cannot succeed). -/
theorem c1_delete_is_hard_delete_and_no_restore_route :
    deleteTodo [c1Item] 1 = ([], DeleteResult.noContent)
    ∧ getTodo (deleteTodo [c1Item] 1).1 1 = GetResult.notFound
    ∧ (listTodos (deleteTodo [c1Item] 1).1 none 1 20 none).items = []
    ∧ (∀ route ∈ mappedRoutes, route.2 ≠ "/api/todos/{id:int}/restore")
    ∧ (∀ route ∈ mappedRoutes, route.2 ≠ "/api/todos/{id}/restore") := by
  decide

/-! ### C2: text search -/

/-- First stored todo of the repository's search test: title
`"Alpha task"`, notes `"needle note"`. -/
def c2Alpha : TodoItem :=
  { id := 1, title := "Alpha task", notes := some "needle note", isCompleted := false,
    sortOrder := 0, dueDate := none, createdAt := 0, updatedAt := 0 }

/-- Second stored todo of the search test: title `"Needle title"`. -/
def c2Needle : TodoItem :=
  { id := 2, title := "Needle title", notes := none, isCompleted := false,
    sortOrder := 0, dueDate := none, createdAt := 1, updatedAt := 1 }

/-- Third stored todo of the search test: title `"Other"`, notes
`"no match"` — it contains no `"needle"` anywhere. -/
def c2Other : TodoItem :=
  { id := 3, title := "Other", notes := some "no match", isCompleted := false,
    sortOrder := 0, dueDate := none, createdAt := 2, updatedAt := 2 }

/-- C2: the claim says `GET /api/todos?q=needle` returns only todos whose
title or notes contain the query.  The list handler of `TodosApi.cs` binds
no `q` parameter at all (minimal-API binding ignores the query-string key),
so the request behaves like a plain list: on the store of the repository's
own search test it returns all three items — including `"Other"`, which
matches nowhere — where the test asserts exactly the two matching items. -/
theorem c2_text_search_is_not_implemented :
    "q" ∉ listHandlerParameters
    ∧ (listTodos [c2Alpha, c2Needle, c2Other] none 1 100 none).items
        = [c2Other, c2Needle, c2Alpha]
    ∧ c2Other ∈ (listTodos [c2Alpha, c2Needle, c2Other] none 1 100 none).items := by
  decide

/-! ### C3: sort by due date -/

/-- A todo created first, with the sooner due date. -/
def c3Early : TodoItem :=
  { id := 1, title := "Due today", notes := none, isCompleted := false,
    sortOrder := 0, dueDate := some 0, createdAt := 0, updatedAt := 0 }

/-- A todo created second, with the later due date. -/
def c3Late : TodoItem :=
  { id := 2, title := "Due tomorrow", notes := none, isCompleted := false,
    sortOrder := 0, dueDate := some 1, createdAt := 1, updatedAt := 1 }

/-- C3: the claim says `GET /api/todos?sort=due` orders by `DueDate`
ascending.  `ApplySort` in `TodosApi.cs` has no `"due"` case, so
`sort=due` falls to the default branch, `OrderByDescending(CreatedAt)`:
with the earlier-due item created first, the handler returns the
later-due item first — the opposite of the claimed order. -/
theorem c3_sort_due_is_not_implemented :
    c3Early.dueDate = some 0 ∧ c3Late.dueDate = some 1
    ∧ (listTodos [c3Early, c3Late] none 1 20 (some "due")).items = [c3Late, c3Early]
    ∧ applySort (some "due") [c3Early, c3Late] = applySort none [c3Early, c3Late] := by
  decide

/-! ### C4: filtering by completion state -/

/-- C4: with `completed=b` every returned item has `IsCompleted = b`; with
the parameter absent no completion-state filtering happens — on any store
of at most one page the returned items are exactly the stored ones, up to
the sort order. -/
theorem c4_completed_filter (db : Db) (b : Bool) (page pageSize : Int)
    (sort : Option String) (hdb : db.length ≤ 100) :
    (∀ item ∈ (listTodos db (some b) page pageSize sort).items, item.isCompleted = b)
    ∧ ((listTodos db none 1 100 sort).items).Perm db := by
  constructor
  · intro item hmem
    have h2 := mem_listTodos_items db (some b) page pageSize sort hmem
    simp only [filterCompleted, List.mem_filter, beq_iff_eq] at h2
    exact h2.2
  · have hitems : (listTodos db none 1 100 sort).items
        = ((applySort sort db).drop 0).take 100 := rfl
    have hperm : (applySort sort db).Perm db := applySort_perm sort db
    rw [hitems, List.drop_zero, List.take_of_length_le]
    · exact hperm
    · rw [hperm.length_eq]
      exact hdb

/-- A store with one completed and one open todo. -/
def c4Db : Db :=
  [ { id := 1, title := "First", notes := none, isCompleted := false,
      sortOrder := 0, dueDate := none, createdAt := 0, updatedAt := 0 }
  , { id := 2, title := "Second", notes := none, isCompleted := true,
      sortOrder := 0, dueDate := none, createdAt := 1, updatedAt := 1 } ]

/-- Witness for C4 on a concrete two-item store. -/
theorem c4_completed_filter_witness :
    (∀ item ∈ (listTodos c4Db (some true) 1 20 none).items, item.isCompleted = true)
    ∧ ((listTodos c4Db none 1 100 none).items).Perm c4Db :=
  c4_completed_filter c4Db true 1 20 none (by decide)

/-! ### C5: pagination -/

/-- A six-item store (distinct creation times) for the C5 wrap-around
counterexample. -/
def c5Db : Db :=
  [ { id := 1, title := "One", notes := none, isCompleted := false,
      sortOrder := 0, dueDate := none, createdAt := 0, updatedAt := 0 }
  , { id := 2, title := "Two", notes := none, isCompleted := false,
      sortOrder := 0, dueDate := none, createdAt := 1, updatedAt := 1 }
  , { id := 3, title := "Three", notes := none, isCompleted := false,
      sortOrder := 0, dueDate := none, createdAt := 2, updatedAt := 2 }
  , { id := 4, title := "Four", notes := none, isCompleted := false,
      sortOrder := 0, dueDate := none, createdAt := 3, updatedAt := 3 }
  , { id := 5, title := "Five", notes := none, isCompleted := false,
      sortOrder := 0, dueDate := none, createdAt := 4, updatedAt := 4 }
  , { id := 6, title := "Six", notes := none, isCompleted := false,
      sortOrder := 0, dueDate := none, createdAt := 5, updatedAt := 5 }
  ]

/-- C5 as stated is false: at `page = 42949674`, `pageSize = 100` the
true product `(page-1)*pageSize = 4294967300` lies beyond the store, so
the claimed contiguous slice is empty, but the handler computes the skip
offset in unchecked 32-bit arithmetic, wraps it to 4, and returns the
(non-empty) slice starting at index 4 of the sorted sequence. -/
theorem c5_unbounded_slice_counterexample :
    wrapInt32 ((42949674 - 1) * 100) = 4
    ∧ (listTodos c5Db none 42949674 100 none).items
      = [ { id := 2, title := "Two", notes := none, isCompleted := false,
            sortOrder := 0, dueDate := none, createdAt := 1, updatedAt := 1 }
        , { id := 1, title := "One", notes := none, isCompleted := false,
            sortOrder := 0, dueDate := none, createdAt := 0, updatedAt := 0 } ]
    ∧ ((applySort none (filterCompleted none c5Db)).drop
        (((42949674 - 1) * 100 : Int)).toNat).take ((100 : Int)).toNat = [] := by
  refine ⟨by decide, by decide, ?_⟩
  have hdrop : (applySort none (filterCompleted none c5Db)).drop
      (((42949674 - 1) * 100 : Int)).toNat = [] :=
    List.drop_eq_nil_of_le (by decide)
  rw [hdrop, List.take_nil]

/-- An integer already in the `int` range is unchanged by the wrap. -/
lemma wrapInt32_eq_self (n : Int) (h1 : -2 ^ 31 ≤ n) (h2 : n < 2 ^ 31) :
    wrapInt32 n = n := by
  unfold wrapInt32
  omega

/-- C5, amended for 32-bit skip arithmetic: a `page` below 1 acts as
page 1, a `pageSize` below 1 as 20 and `pageSize` is capped at 100 (first
conjunct: the handler is invariant under that normalisation); the body is
exactly the contiguous slice of the filtered, sorted sequence starting at
`(page-1)*pageSize` computed with 32-bit wrap-around (second conjunct) —
which is the original index whenever the product stays below `2^31`
(third conjunct) — and it carries at most `pageSize` items (fourth
conjunct). -/
theorem c5_pagination_wrapped (db : Db) (completed : Option Bool) (page pageSize : Int)
    (sort : Option String) :
    listTodos db completed page pageSize sort
      = listTodos db completed (if page < 1 then 1 else page)
          (if pageSize < 1 then 20 else min pageSize 100) sort
    ∧ (listTodos db completed page pageSize sort).items
      = ((applySort sort (filterCompleted completed db)).drop
            ((wrapInt32 (((if page < 1 then 1 else page) - 1)
              * (if pageSize < 1 then 20 else min pageSize 100))).toNat)).take
          ((if pageSize < 1 then 20 else min pageSize 100).toNat)
    ∧ (((if page < 1 then 1 else page) - 1)
          * (if pageSize < 1 then 20 else min pageSize 100) < 2 ^ 31 →
        wrapInt32 (((if page < 1 then 1 else page) - 1)
            * (if pageSize < 1 then 20 else min pageSize 100))
          = ((if page < 1 then 1 else page) - 1)
            * (if pageSize < 1 then 20 else min pageSize 100))
    ∧ (listTodos db completed page pageSize sort).items.length
      ≤ (if pageSize < 1 then 20 else min pageSize 100).toNat := by
  have hpage : (if (if page < 1 then 1 else page) < 1 then 1
      else if page < 1 then 1 else page) = (if page < 1 then 1 else page) := by
    split_ifs <;> omega
  have hsize : (if (if pageSize < 1 then 20 else min pageSize 100) < 1 then 20
      else min (if pageSize < 1 then 20 else min pageSize 100) 100)
      = (if pageSize < 1 then 20 else min pageSize 100) := by
    split_ifs <;> omega
  refine ⟨?_, rfl, ?_, ?_⟩
  · simp only [listTodos, hpage, hsize]
  · intro hlt
    refine wrapInt32_eq_self _ ?_ hlt
    have h1 : (0 : Int) ≤ (if page < 1 then 1 else page) - 1 := by
      split_ifs <;> omega
    have h2 : (0 : Int) ≤ (if pageSize < 1 then 20 else min pageSize 100) := by
      split_ifs <;> omega
    have := mul_nonneg h1 h2
    omega
  · exact List.length_take_le _ _

/-- Witness for the amended C5 at a concrete in-range request
(`page = 2`, `pageSize = 3`). -/
theorem c5_pagination_wrapped_witness :
    listTodos c5Db none 2 3 none
      = listTodos c5Db none (if (2 : Int) < 1 then (1 : Int) else 2)
          (if (3 : Int) < 1 then (20 : Int) else min 3 100) none
    ∧ (listTodos c5Db none 2 3 none).items
      = ((applySort none (filterCompleted none c5Db)).drop
            ((wrapInt32 (((if (2 : Int) < 1 then (1 : Int) else 2) - 1)
              * (if (3 : Int) < 1 then (20 : Int) else min 3 100))).toNat)).take
          ((if (3 : Int) < 1 then (20 : Int) else min 3 100).toNat)
    ∧ (((if (2 : Int) < 1 then (1 : Int) else 2) - 1)
          * (if (3 : Int) < 1 then (20 : Int) else min 3 100) < 2 ^ 31 →
        wrapInt32 (((if (2 : Int) < 1 then (1 : Int) else 2) - 1)
            * (if (3 : Int) < 1 then (20 : Int) else min 3 100))
          = ((if (2 : Int) < 1 then (1 : Int) else 2) - 1)
            * (if (3 : Int) < 1 then (20 : Int) else min 3 100))
    ∧ (listTodos c5Db none 2 3 none).items.length
      ≤ (if (3 : Int) < 1 then (20 : Int) else min 3 100).toNat :=
  c5_pagination_wrapped c5Db none 2 3 none

/-! ### C10: X-Total-Count -/

/-- C10: the `X-Total-Count` header counts every stored todo satisfying
the `completed` filter, and is independent of `page`, `pageSize` and
`sort`. -/
theorem c10_total_count (db : Db) (completed : Option Bool)
    (page pageSize page2 pageSize2 : Int) (sort sort2 : Option String) :
    (listTodos db completed page pageSize sort).totalCount
      = db.countP (fun item => match completed with
          | some b => item.isCompleted == b
          | none => true)
    ∧ (listTodos db completed page pageSize sort).totalCount
      = (listTodos db completed page2 pageSize2 sort2).totalCount := by
  constructor
  · cases completed <;>
      simp [listTodos, filterCompleted, List.countP_eq_length_filter]
  · rfl

/-! ### C7: the client collection mirrors REST responses -/

/-- C7: the collection's query function turns a non-OK response into the
error `"Could not load todos."` (so the store is left untouched), an OK
array body into exactly its items, and an OK non-array body into `[]`. -/
theorem c7_collection_mirrors_rest (body : JsonData) (items : List TodoItem) :
    collectionQueryFn false body = Except.error "Could not load todos."
    ∧ collectionQueryFn true (JsonData.array items) = Except.ok items
    ∧ collectionQueryFn true JsonData.other = Except.ok [] :=
  ⟨rfl, rfl, rfl⟩

/-! ### C9: PATCH is atomic on validation failure -/

/-- C9: a PATCH on an existing item whose supplied title trims to
whitespace returns 400 `"Title is required."` and leaves the database —
hence the stored item, `UpdatedAt` included — entirely unchanged; no
other requested change is applied. -/
theorem c9_patch_validation_is_atomic (db : Db) (id : Nat)
    (request : UpdateTodoRequest) (now : Int) (item : TodoItem) (t : String)
    (hfind : db.find? (fun todo => todo.id == id) = some item)
    (ht : request.title = some t)
    (hbad : isWhiteSpaceStr (trimStr t) = true) :
    patchTodo db id request now = (db, PatchResult.badRequest "Title is required.") := by
  simp [patchTodo, patchTitle, hfind, ht, hbad]

/-- A stored todo with every field populated, for the C9 witness. -/
def c9Item : TodoItem :=
  { id := 7, title := "Water plants", notes := some "balcony", isCompleted := false,
    sortOrder := 3, dueDate := some 40, createdAt := 20, updatedAt := 21 }

/-- A PATCH request carrying a whitespace title **and** other changes that
must not be applied. -/
def c9Request : UpdateTodoRequest :=
  { title := some "   ", notes := some "new notes", dueDate := some 99,
    sortOrder := some 8, isCompleted := some true, clearDueDate := false }

/-- Witness for C9: the whitespace-titled PATCH leaves the concrete store
untouched and returns 400. -/
theorem c9_patch_validation_is_atomic_witness :
    patchTodo [c9Item] 7 c9Request 50
      = ([c9Item], PatchResult.badRequest "Title is required.") :=
  c9_patch_validation_is_atomic [c9Item] 7 c9Request 50 c9Item "   "
    (by decide) rfl (by decide)

/-! ### C8: POST validation and created item -/

/-- C8: `POST /api/todos` answers 400 `"Title is required."` exactly when
the request title is null, empty or whitespace-only; otherwise it appends
and returns a new item whose title and notes are the trimmed request
values (null notes stay null), `IsCompleted` is false, `SortOrder`
defaults to 0, and `CreatedAt = UpdatedAt = now`. -/
theorem c8_post_title_validation (db : Db) (request : CreateTodoRequest)
    (now : Int) (newId : Nat) :
    ((postTodo db request now newId).2 = PostResult.badRequest "Title is required."
      ↔ (request.title = none ∨ ∃ t, request.title = some t ∧ isWhiteSpaceStr t = true))
    ∧ (∀ t, request.title = some t → isWhiteSpaceStr t = false →
        postTodo db request now newId
          = (db ++ [{ id := newId, title := trimStr t,
                      notes := request.notes.map trimStr,
                      dueDate := request.dueDate,
                      sortOrder := request.sortOrder.getD 0,
                      isCompleted := false, createdAt := now, updatedAt := now }],
             PostResult.created
               { id := newId, title := trimStr t,
                 notes := request.notes.map trimStr,
                 dueDate := request.dueDate,
                 sortOrder := request.sortOrder.getD 0,
                 isCompleted := false, createdAt := now, updatedAt := now })) := by
  constructor
  · rcases ht : request.title with _ | t
    · simp [postTodo, ht]
    · by_cases hw : isWhiteSpaceStr (trimStr t) = true
      · have hw2 : isWhiteSpaceStr t = true := by
          rw [← isWhiteSpaceStr_trimStr]; exact hw
        simp [postTodo, ht, hw, hw2]
      · have hw1 : isWhiteSpaceStr (trimStr t) = false := by simpa using hw
        have hw2 : isWhiteSpaceStr t = false := by
          rw [← isWhiteSpaceStr_trimStr]; exact hw1
        simp [postTodo, ht, hw1, hw2]
  · intro t ht hwt
    have hw1 : isWhiteSpaceStr (trimStr t) = false := by
      rw [isWhiteSpaceStr_trimStr]; exact hwt
    simp [postTodo, ht, hw1]

/-- A create request whose title is whitespace-only. -/
def c8BadRequest : CreateTodoRequest :=
  { title := some "   ", notes := none, dueDate := none, sortOrder := none }

/-- A create request with a padded title and padded notes. -/
def c8GoodRequest : CreateTodoRequest :=
  { title := some "  Buy milk  ", notes := some " from store ", dueDate := some 3,
    sortOrder := none }

/-- Witness for C8: the whitespace title is rejected with the exact error,
and the padded title produces the trimmed created item. -/
theorem c8_post_title_validation_witness :
    (postTodo [] c8BadRequest 7 1).2 = PostResult.badRequest "Title is required."
    ∧ postTodo [] c8GoodRequest 7 1
      = ([] ++ [{ id := 1, title := trimStr "  Buy milk  ",
                  notes := c8GoodRequest.notes.map trimStr,
                  dueDate := c8GoodRequest.dueDate,
                  sortOrder := c8GoodRequest.sortOrder.getD 0,
                  isCompleted := false, createdAt := 7, updatedAt := 7 }],
         PostResult.created
           { id := 1, title := trimStr "  Buy milk  ",
             notes := c8GoodRequest.notes.map trimStr,
             dueDate := c8GoodRequest.dueDate,
             sortOrder := c8GoodRequest.sortOrder.getD 0,
             isCompleted := false, createdAt := 7, updatedAt := 7 }) :=
  ⟨(c8_post_title_validation [] c8BadRequest 7 1).1.mpr
      (Or.inr ⟨"   ", rfl, by decide⟩),
   (c8_post_title_validation [] c8GoodRequest 7 1).2 "  Buy milk  " rfl (by decide)⟩

/-! ### C6: PATCH is a partial update -/

/-- How each field of the PATCH result relates to the pre-update item:
fields without a supplied value are untouched, `DueDate` moves only on a
supplied value or `ClearDueDate`, `UpdatedAt` becomes `now`, and the
title, id and creation time pass through unchanged. -/
lemma applyPatchFields_spec (item : TodoItem) (request : UpdateTodoRequest) (now : Int) :
    (applyPatchFields item request now).title = item.title
    ∧ (applyPatchFields item request now).id = item.id
    ∧ (applyPatchFields item request now).createdAt = item.createdAt
    ∧ (applyPatchFields item request now).updatedAt = now
    ∧ (request.notes = none → (applyPatchFields item request now).notes = item.notes)
    ∧ (request.sortOrder = none →
        (applyPatchFields item request now).sortOrder = item.sortOrder)
    ∧ (request.isCompleted = none →
        (applyPatchFields item request now).isCompleted = item.isCompleted)
    ∧ (request.dueDate = none → request.clearDueDate = false →
        (applyPatchFields item request now).dueDate = item.dueDate)
    ∧ (request.clearDueDate = true → (applyPatchFields item request now).dueDate = none)
    ∧ (∀ d, request.dueDate = some d → request.clearDueDate = false →
        (applyPatchFields item request now).dueDate = some d) := by
  rcases hn : request.notes with _ | n <;>
    rcases hs : request.sortOrder with _ | s <;>
      rcases hc : request.isCompleted with _ | c <;>
        rcases hd : request.dueDate with _ | d <;>
          cases hb : request.clearDueDate <;>
            simp [applyPatchFields, hn, hs, hc, hd, hb]

/-- C6: a successful PATCH on an existing item changes only the supplied
fields — absent (`null`) title, notes, sort order and completion flag stay
as stored; the due date moves only when a value is supplied or
`ClearDueDate` is set (and is cleared to `null` in the latter case) — and
always stamps `UpdatedAt` with the current time, while id and `CreatedAt`
never change. -/
theorem c6_patch_is_partial (db : Db) (id : Nat) (request : UpdateTodoRequest)
    (now : Int) (item : TodoItem) (db2 : Db) (updated : TodoItem)
    (hfind : db.find? (fun todo => todo.id == id) = some item)
    (hok : patchTodo db id request now = (db2, PatchResult.okItem updated)) :
    (request.title = none → updated.title = item.title)
    ∧ (request.notes = none → updated.notes = item.notes)
    ∧ (request.sortOrder = none → updated.sortOrder = item.sortOrder)
    ∧ (request.isCompleted = none → updated.isCompleted = item.isCompleted)
    ∧ (request.dueDate = none → request.clearDueDate = false →
        updated.dueDate = item.dueDate)
    ∧ (request.clearDueDate = true → updated.dueDate = none)
    ∧ (∀ d, request.dueDate = some d → request.clearDueDate = false →
        updated.dueDate = some d)
    ∧ updated.updatedAt = now
    ∧ updated.id = item.id
    ∧ updated.createdAt = item.createdAt := by
  simp only [patchTodo, hfind] at hok
  rcases hpt : patchTitle item request.title with _ | item2 <;> rw [hpt] at hok
  · simp at hok
  · simp only [Prod.mk.injEq] at hok
    have hupd : updated = applyPatchFields item2 request now := by
      have h2 := hok.2
      simp at h2
      exact h2.symm
    have hbase : item2.id = item.id ∧ item2.notes = item.notes
        ∧ item2.sortOrder = item.sortOrder ∧ item2.isCompleted = item.isCompleted
        ∧ item2.dueDate = item.dueDate ∧ item2.createdAt = item.createdAt
        ∧ (request.title = none → item2.title = item.title) := by
      unfold patchTitle at hpt
      rcases ht : request.title with _ | t <;> rw [ht] at hpt
      · simp at hpt
        subst hpt
        simp [ht]
      · by_cases hw : isWhiteSpaceStr (trimStr t) = true
        · simp [hw] at hpt
        · simp [hw] at hpt
          subst hpt
          simp [ht]
    obtain ⟨hid, hnotes, hsort, hcomp, hdue, hcreated, htitle⟩ := hbase
    obtain ⟨t1, t2, t3, t4, t5, t6, t7, t8, t9, t10⟩ :=
      applyPatchFields_spec item2 request now
    subst hupd
    refine ⟨?_, ?_, ?_, ?_, ?_, ?_, ?_, ?_, ?_, ?_⟩
    · intro h
      rw [t1]
      exact htitle h
    · intro h
      rw [t5 h]
      exact hnotes
    · intro h
      rw [t6 h]
      exact hsort
    · intro h
      rw [t7 h]
      exact hcomp
    · intro h1 h2
      rw [t8 h1 h2]
      exact hdue
    · exact t9
    · exact t10
    · exact t4
    · rw [t2]
      exact hid
    · rw [t3]
      exact hcreated

/-- A stored todo for the C6 witness. -/
def c6Item : TodoItem :=
  { id := 1, title := "Ship report", notes := some "draft", isCompleted := false,
    sortOrder := 2, dueDate := some 50, createdAt := 10, updatedAt := 11 }

/-- A PATCH request supplying only `IsCompleted`. -/
def c6Request : UpdateTodoRequest :=
  { title := none, notes := none, dueDate := none, sortOrder := none,
    isCompleted := some true, clearDueDate := false }

/-- The item after the C6 witness PATCH: only `IsCompleted` and
`UpdatedAt` moved. -/
def c6Updated : TodoItem :=
  { id := 1, title := "Ship report", notes := some "draft", isCompleted := true,
    sortOrder := 2, dueDate := some 50, createdAt := 10, updatedAt := 99 }

/-- Witness for C6 on a concrete store and request. -/
theorem c6_patch_is_partial_witness :
    (c6Request.title = none → c6Updated.title = c6Item.title)
    ∧ (c6Request.notes = none → c6Updated.notes = c6Item.notes)
    ∧ (c6Request.sortOrder = none → c6Updated.sortOrder = c6Item.sortOrder)
    ∧ (c6Request.isCompleted = none → c6Updated.isCompleted = c6Item.isCompleted)
    ∧ (c6Request.dueDate = none → c6Request.clearDueDate = false →
        c6Updated.dueDate = c6Item.dueDate)
    ∧ (c6Request.clearDueDate = true → c6Updated.dueDate = none)
    ∧ (∀ d, c6Request.dueDate = some d → c6Request.clearDueDate = false →
        c6Updated.dueDate = some d)
    ∧ c6Updated.updatedAt = 99
    ∧ c6Updated.id = c6Item.id
    ∧ c6Updated.createdAt = c6Item.createdAt :=
  c6_patch_is_partial [c6Item] 1 c6Request 99 c6Item [c6Updated] c6Updated
    (by decide) (by decide)
